import Mathlib

/-!
Verification of the CHATSEC SOC-Agent core: a shallow embedding in Lean 4 of
the intent-routing / data-fetch orchestration (`src/core/agent.py`), the
scheduled task runner (`src/core/proactive_agents.py`), the alert
summarisation and agent lookup of the monitoring client
(`src/core/wazuh_client.py`), and the proactive-agent persistence layer
(`src/database/models.py`).

External effects (HTTP calls, the language model, the SQLite store) are made
explicit: the monitoring client is a stub structure of pure result suppliers,
the language model is a function returning `Except` (an exception becomes
`.error`), and every run returns a trace recording which client operations
were invoked and which tool results were assembled.
-/

/-! ## String helpers mirroring the Python primitives used by the source -/

/-- Python `str.lower()` (ASCII case folding, which covers every prompt the
source's keyword vocabulary tests). -/
def strLower (s : String) : String :=
  String.mk (s.toList.map Char.toLower)

/-- Helper for substring search: does `needle` occur in `hay` (as lists of
characters)? Mirrors Python's `needle in hay` on strings. -/
def containsSubAux (needle : List Char) : List Char → Bool
  | [] => needle.isPrefixOf ([] : List Char)
  | c :: t => needle.isPrefixOf (c :: t) || containsSubAux needle t

/-- Python's `needle in hay` membership test on strings. -/
def containsSub (hay needle : String) : Bool :=
  containsSubAux needle.toList hay.toList

/-- Split a character list at every whitespace character (keeping empty
pieces, as `String.split` does). -/
def splitWsAux : List Char → List Char → List String
  | [], acc => [String.mk acc.reverse]
  | c :: t, acc =>
      if c.isWhitespace then String.mk acc.reverse :: splitWsAux t []
      else splitWsAux t (c :: acc)

/-- Python `str.split()` with no argument: split on whitespace and drop
empty pieces. -/
def pySplit (s : String) : List String :=
  (splitWsAux s.toList []).filter (fun w => w ≠ "")

/-- The characters stripped by `word.strip('.,!?')` in the source. -/
def stripSet : List Char := ['.', ',', '!', '?']

/-- Python `word.strip('.,!?')`: remove leading and trailing characters drawn
from the strip set. -/
def pyStrip (s : String) : String :=
  String.mk
    (((s.toList.dropWhile (fun c => stripSet.contains c)).reverse.dropWhile
        (fun c => stripSet.contains c)).reverse)

/-- Python `l[-n:]`: the trailing window of at most `n` elements. -/
def lastN (n : Nat) (l : List α) : List α :=
  l.drop (l.length - n)

/-! ## `WazuhAPIClient.get_alert_summary` severity bucketing
(`src/core/wazuh_client.py`, lines 189-220)

The summary is computed from the integer `rule.level` of each alert returned
by the indexer query; we embed the bucketing fold over that list of levels. -/

structure AlertSummary where
  critical : Nat
  high : Nat
  medium : Nat
  low : Nat
deriving DecidableEq, Repr

/-- One iteration of the summary loop of `get_alert_summary`: the
`if level >= 13 / elif >= 8 / elif >= 4 / else` cascade of the source. -/
def bucket_add (s : AlertSummary) (level : Int) : AlertSummary :=
  if level ≥ 13 then { s with critical := s.critical + 1 }
  else if level ≥ 8 then { s with high := s.high + 1 }
  else if level ≥ 4 then { s with medium := s.medium + 1 }
  else { s with low := s.low + 1 }

/-- `sum(summary.values())` of the source. -/
def summary_total (s : AlertSummary) : Nat :=
  s.critical + s.high + s.medium + s.low

/-- `get_alert_summary`, abstracted over the integer rule levels of the
alerts returned by the indexer: the fold of `bucket_add` starting from the
all-zero summary. -/
def get_alert_summary (levels : List Int) : AlertSummary :=
  levels.foldl bucket_add ⟨0, 0, 0, 0⟩

/-- The `total_alerts` field reported by `get_alert_summary`:
`sum(summary.values())`. -/
def total_alerts (levels : List Int) : Nat :=
  summary_total (get_alert_summary levels)

/-! ## `WazuhAPIClient.get_agent_by_name`
(`src/core/wazuh_client.py`, lines 115-122) -/

structure WAgent where
  name : String
  body : String
deriving DecidableEq, Repr

/-- Outcome of the roster fetch `get_agents()` as seen by
`get_agent_by_name`: either the `affected_items` list on success or the
error envelope. -/
inductive AgentsResult where
  | ok (agents : List WAgent)
  | err (error : String)
deriving DecidableEq

/-- The success/error envelope returned by `get_agent_by_name`. -/
inductive AgentLookup where
  | found (agent : WAgent)
  | notFound (error : String)
deriving DecidableEq

/-- The per-agent comparison of the source:
`agent.get("name", "").lower() == agent_name.lower()`. -/
def agent_name_matches (a : WAgent) (q : String) : Bool :=
  strLower a.name == strLower q

/-- The `for agent in result.get("agents", [])` loop with early `return` on
the first case-insensitive name match. -/
def find_agent : List WAgent → String → Option WAgent
  | [], _ => none
  | a :: rest, q =>
      if agent_name_matches a q then some a else find_agent rest q

/-- `get_agent_by_name`: on a successful roster fetch, return the first
case-insensitive match; otherwise (no match, or roster fetch failed) return
the not-found error envelope. -/
def get_agent_by_name (res : AgentsResult) (agent_name : String) : AgentLookup :=
  match res with
  | .ok agents =>
      match find_agent agents agent_name with
      | some a => .found a
      | none => .notFound ("Agent " ++ agent_name ++ " not found")
  | .err _ => .notFound ("Agent " ++ agent_name ++ " not found")

example : containsSub "show me critical" "critical" = true := by decide
example : pySplit "  a b  c " = ["a", "b", "c"] := by decide
example : pyStrip "win-007," = "win-007" := by decide
example : get_alert_summary [15, 8, 4, 0] = ⟨1, 1, 1, 1⟩ := by decide
example :
    get_agent_by_name (.ok [⟨"WIN-007", "x"⟩]) "win-007" = .found ⟨"WIN-007", "x"⟩ := by
  decide

/-! ## `SOCAgent.run` — intent routing and data-fetch orchestration
(`src/core/agent.py`, lines 254-391)

The monitoring client is a stub structure of the result payloads each
operation would return (the spec's testable properties are stated against
exactly such a stub); the language model is a function returning `Except`
(`.error` models a raised exception). A run yields a trace: the returned
response string, the list of client operations invoked in order, the
assembled `tool_results`, and the message list handed to the model. -/

inductive LMsg where
  | system (content : String)
  | human (content : String)
  | ai (content : String)
deriving DecidableEq, Repr

/-- The language model: `llm.invoke(messages)`, which either returns text or
raises (modelled as `.error`). -/
def LLMFun : Type := List LMsg → Except String String

/-- A monitoring-client operation invocation, recording the arguments the
source passes. -/
inductive ClientCall where
  | healthCheck
  | criticalAlerts (hours : Nat) (agent_name : Option String)
  | alertSummary (hours : Nat) (agent_name : Option String)
  | alertsFromIndexer (hours limit : Nat) (agent_name : Option String)
  | agentByName (name : String)
  | agents
  | vulnerabilities (agent_name : Option String) (limit : Nat)
  | failedAuth (hours : Nat) (agent_name : Option String) (limit : Nat)
deriving DecidableEq, Repr

/-- The health-check envelope as `run` consumes it: its `success` flag, its
optional `error` field, and the rest of the serialized payload. -/
structure HealthResult where
  success : Bool
  error : Option String
  body : String
deriving DecidableEq, Repr

/-- Stub Monitoring API Client: each operation is a pure supplier of the
serialized payload `run` embeds into the context (via `json.dumps` in the
source). -/
structure WazuhClient where
  health_check : HealthResult
  get_critical_alerts : Nat → Option String → String
  get_alert_summary : Nat → Option String → String
  get_alerts_from_indexer : Nat → Nat → Option String → String
  get_agent_by_name : String → String
  get_agents : String
  get_vulnerabilities : Option String → Nat → String
  get_failed_auth : Nat → Option String → Nat → String

/-- A prior chat message (`{'role': ..., 'content': ...}`). -/
structure ChatMsg where
  role : String
  content : String
deriving DecidableEq, Repr

/-- The observable outcome of one `run` call. -/
structure RunTrace where
  response : String
  calls : List ClientCall
  tool_results : List (String × String)
  llm_messages : Option (List LMsg)
deriving DecidableEq, Repr

/-- The fetch-triggering phrase vocabulary of `run`. -/
def fetch_phrases : List String :=
  ["go ahead", "fetch", "get", "show me", "pull", "retrieve", "check",
   "how many", "what", "tell me", "list", "find", "search", "yes", "do it",
   "curl", "query", "api call", "direct"]

/-- `should_fetch_data`: does the lowered prompt contain any
fetch-triggering phrase? -/
def should_fetch_data (prompt_lower : String) : Bool :=
  fetch_phrases.any (fun p => containsSub prompt_lower p)

/-- The agent-token extraction loop of `run`: scan the whitespace-split
words of the (un-lowered) prompt; the first word whose lowering contains
`"win-"`, `"srv-"` or `"agent"` wins, stripped of `'.,!?'`. -/
def extract_agent_loop : List String → Option String
  | [] => none
  | w :: ws =>
      if containsSub (strLower w) "win-" || containsSub (strLower w) "srv-"
          || containsSub (strLower w) "agent" then
        some (pyStrip w)
      else
        extract_agent_loop ws

def extract_agent_name (prompt : String) : Option String :=
  extract_agent_loop (pySplit prompt)

def critical_keywords : List String := ["critical", "severity", "high", "issue"]
def alert_keywords : List String := ["alert", "recent", "latest", "event"]
def agent_keywords : List String := ["agent", "host", "machine", "server"]
def vuln_keywords : List String := ["vulnerab", "cve", "exploit", "patch"]
def auth_keywords : List String := ["auth", "login", "password", "failed"]

/-- `any(word in prompt_lower for word in ...)`. -/
def anyKeyword (prompt_lower : String) (ws : List String) : Bool :=
  ws.any (fun w => containsSub prompt_lower w)

/-- The keyword-bucket secondary fetches of `run`, in source order. Each
entry is (invocation record, label, payload). -/
def bucketFetches (wc : WazuhClient) (prompt_lower : String)
    (agent_name : Option String) : List (ClientCall × String × String) :=
  (if anyKeyword prompt_lower critical_keywords then
    [(.criticalAlerts 24 agent_name, "Critical Alerts",
        wc.get_critical_alerts 24 agent_name),
     (.alertSummary 24 agent_name, "Alert Summary",
        wc.get_alert_summary 24 agent_name)]
   else []) ++
  (if anyKeyword prompt_lower alert_keywords then
    [(.alertsFromIndexer 24 50 agent_name, "Recent Alerts",
        wc.get_alerts_from_indexer 24 50 agent_name)]
   else []) ++
  (if anyKeyword prompt_lower agent_keywords then
    (match agent_name with
     | some nm => [(.agentByName nm, "Agent " ++ nm, wc.get_agent_by_name nm)]
     | none => [(.agents, "All Agents", wc.get_agents)])
   else []) ++
  (if anyKeyword prompt_lower vuln_keywords then
    [(.vulnerabilities agent_name 20, "Vulnerabilities",
        wc.get_vulnerabilities agent_name 20)]
   else []) ++
  (if anyKeyword prompt_lower auth_keywords then
    [(.failedAuth 24 agent_name 50, "Failed Authentication",
        wc.get_failed_auth 24 agent_name 50)]
   else [])

/-- The default fallback of `run` when only the health check is in
`tool_results`: fetch the summary, plus the agent record when a token was
extracted. -/
def defaultFetches (wc : WazuhClient) (agent_name : Option String) :
    List (ClientCall × String × String) :=
  (.alertSummary 24 agent_name, "Alert Summary",
      wc.get_alert_summary 24 agent_name) ::
  (match agent_name with
   | some nm => [(.agentByName nm, "Agent " ++ nm, wc.get_agent_by_name nm)]
   | none => [])

/-- `tools_output`: the labelled context block built from `tool_results`. -/
def format_tool_results (trs : List (String × String)) : String :=
  String.intercalate "\n\n"
    (trs.map (fun p => "### " ++ p.1 ++ "\n```json\n" ++ p.2 ++ "\n```"))

/-- The fixed analysis system message of the fetch branch. -/
def analysisSystem : String :=
  "You are a SOC analyst. Analyze Wazuh data and provide clear, accurate answers with specific numbers."

/-- The `analysis_prompt` f-string of the fetch branch. -/
def analysis_prompt (prompt tools_output : String) : String :=
  "User question: \"" ++ prompt ++ "\"\n\nHere is the data from Wazuh:\n\n"
    ++ tools_output
    ++ "\n\nPlease analyze this data and answer the user's question. Be specific:\n"
    ++ "- If asking about a specific agent (like win-001), extract data only for that agent\n"
    ++ "- Count actual numbers from the JSON data\n"
    ++ "- If critical issues are mentioned, report the exact count from \"total_critical\" field\n"
    ++ "- Format your response clearly with numbers and details"

/-- The fixed persona system message of the conversational branch. -/
def convSystem : String :=
  "You are a Security Operations Center (SOC) analyst assistant with access to Wazuh security monitoring.\n\n"
    ++ "You have the following capabilities:\n"
    ++ "1. Query Wazuh API directly using curl-like requests\n"
    ++ "2. Fetch alerts, agents, vulnerabilities, and authentication logs\n"
    ++ "3. Filter data by agent name, severity, time range\n"
    ++ "4. Analyze and summarize security data\n\n"
    ++ "When users ask about security data, acknowledge and confirm you can fetch it. When they confirm (say \"go ahead\", \"yes\", etc.), I'll retrieve the actual data from Wazuh using the appropriate API calls."

/-- The conversational message set: persona, the last five prior messages
replayed role-tagged (`user` → human, `assistant` → ai, others dropped),
then the prompt. -/
def conv_messages (prompt : String) (previous_messages : List ChatMsg) :
    List LMsg :=
  LMsg.system convSystem ::
    ((lastN 5 previous_messages).filterMap (fun m =>
      if m.role = "user" then some (.human m.content)
      else if m.role = "assistant" then some (.ai m.content)
      else none)
    ++ [LMsg.human prompt])

/-- `SOCAgent.run`: the turn handler. The fetch branch is taken when a
client is present and the lowered prompt contains a fetch-triggering phrase;
it health-probes first (aborting the turn on failure), issues the keyword
buckets' secondary fetches (defaulting to the summary when none fired),
and invokes the model on the assembled context. Otherwise the conversational
branch replays recent history to the model. A model exception is converted
into a formatted error string in both branches. -/
def SOCAgent.run (wazuh_client : Option WazuhClient) (llm : LLMFun)
    (prompt : String) (previous_messages : List ChatMsg) : RunTrace :=
  let prompt_lower := strLower prompt
  match wazuh_client, should_fetch_data prompt_lower with
  | some wc, true =>
      let agent_name := extract_agent_name prompt
      let health := wc.health_check
      if health.success = false then
        { response := "❌ Cannot connect to Wazuh: "
            ++ health.error.getD "Unknown error",
          calls := [.healthCheck], tool_results := [], llm_messages := none }
      else
        let fetches :=
          let bs := bucketFetches wc prompt_lower agent_name
          if bs.isEmpty then defaultFetches wc agent_name else bs
        let tool_results :=
          ("Health Check", health.body) :: fetches.map (fun f => f.2)
        let calls := ClientCall.healthCheck :: fetches.map (fun f => f.1)
        let tools_output := format_tool_results tool_results
        let messages :=
          [LMsg.system analysisSystem,
           LMsg.human (analysis_prompt prompt tools_output)]
        let response :=
          match llm messages with
          | .ok content => content
          | .error e =>
              "❌ Error analyzing data: " ++ e ++ "\n\nRaw data:\n" ++ tools_output
        { response := response, calls := calls, tool_results := tool_results,
          llm_messages := some messages }
  | _, _ =>
      let messages := conv_messages prompt previous_messages
      let response :=
        match llm messages with
        | .ok content => content
        | .error e => "❌ Error: " ++ e
      { response := response, calls := [], tool_results := [],
        llm_messages := some messages }

/-! ## Startup validation and the public entry point (`SOCAgent.run` with
lazy `initialize`, `src/core/agent.py` lines 25-30 and 267-268) -/

/-- The configuration fields `_validate_config` inspects; the empty string
models a missing value (Python falsiness). -/
structure AgentConfig where
  GROQ_API_KEY : String
  GROQ_MODEL : String
deriving DecidableEq, Repr

/-- `_validate_config`: raises (`.error`) on a missing key or model. -/
def validate_config (c : AgentConfig) : Except String Unit :=
  if c.GROQ_API_KEY = "" then .error "GROQ_API_KEY is required"
  else if c.GROQ_MODEL = "" then .error "GROQ_MODEL is required"
  else .ok ()

/-- The public entry point as the caller sees it: when `self.llm` is unset,
`run` first calls `initialize()`, whose `_validate_config` may raise — the
exception propagates (`.error`). `init_llm`/`init_client` are the model and
client `initialize()` would install. -/
def SOCAgent.runTop (config : AgentConfig) (llm : Option LLMFun)
    (init_llm : LLMFun) (init_client : Option WazuhClient)
    (wazuh_client : Option WazuhClient) (prompt : String)
    (previous_messages : List ChatMsg) : Except String RunTrace :=
  match llm with
  | some f => .ok (SOCAgent.run wazuh_client f prompt previous_messages)
  | none =>
      match validate_config config with
      | .error e => .error e
      | .ok _ => .ok (SOCAgent.run init_client init_llm prompt previous_messages)

/-- A healthy stub client whose payloads are inert markers. -/
def stubClient : WazuhClient where
  health_check := ⟨true, none, "healthy"⟩
  get_critical_alerts := fun _ _ => "critical-data"
  get_alert_summary := fun _ _ => "summary-data"
  get_alerts_from_indexer := fun _ _ _ => "alerts-data"
  get_agent_by_name := fun _ => "agent-data"
  get_agents := "agents-data"
  get_vulnerabilities := fun _ _ => "vulns-data"
  get_failed_auth := fun _ _ _ => "auth-data"

/-- A stub client whose health probe fails. -/
def stubDownClient : WazuhClient :=
  { stubClient with health_check := ⟨false, some "connection refused", ""⟩ }

/-- A stub model that always answers. -/
def stubLLM : LLMFun := fun _ => .ok "stub-answer"

example :
    (SOCAgent.run (some stubDownClient) stubLLM "fetch alerts" []).calls
      = [ClientCall.healthCheck] := by decide
example :
    (SOCAgent.run (some stubClient) stubLLM "hello there" []).calls = [] := by
  decide
example :
    (SOCAgent.run (some stubClient) stubLLM "fetch critical win-007" []).calls
      = [ClientCall.healthCheck,
         ClientCall.criticalAlerts 24 (some "win-007"),
         ClientCall.alertSummary 24 (some "win-007")] := by decide
example :
    (SOCAgent.run (some stubClient) stubLLM
        "show me critical alerts for agent win-007" []).calls
      = [ClientCall.healthCheck,
         ClientCall.criticalAlerts 24 (some "agent"),
         ClientCall.alertSummary 24 (some "agent"),
         ClientCall.alertsFromIndexer 24 50 (some "agent"),
         ClientCall.agentByName "agent"] := by decide
example :
    (SOCAgent.run (some stubClient) stubLLM "yes" []).calls
      = [ClientCall.healthCheck, ClientCall.alertSummary 24 none] := by decide

/-! ## Proactive-agent persistence (`src/database/models.py`, lines 196-239)

The `proactive_agents` table is modelled as a list of rows. `name` is
declared UNIQUE in the schema, and the upsert is update-first /
insert-on-zero-rowcount as in the source. Timestamp columns are omitted:
`get_proactive_agents` does not select them and no claim mentions them. -/

structure AgentRecord where
  name : String
  prompt : String
  interval_minutes : Nat
  enabled : Bool
  last_run : Option String
deriving DecidableEq, Repr

/-- The table after `UPDATE proactive_agents SET prompt=?, interval_minutes=?
WHERE name=?`. -/
def sql_update_agents (tbl : List AgentRecord) (name prompt : String)
    (interval_minutes : Nat) : List AgentRecord :=
  tbl.map (fun r =>
    if r.name == name then
      { r with prompt := prompt, interval_minutes := interval_minutes }
    else r)

/-- `cursor.rowcount` of that UPDATE: the number of rows matching the
`WHERE name=?` filter. -/
def sql_update_rowcount (tbl : List AgentRecord) (name : String) : Nat :=
  tbl.countP (fun r => r.name == name)

/-- `DatabaseManager.save_proactive_agent`: update first; if no row was
affected, insert a fresh row (`enabled` defaults to 1, `last_run` to NULL). -/
def save_proactive_agent (tbl : List AgentRecord) (name prompt : String)
    (interval_minutes : Nat) : List AgentRecord :=
  let updated := sql_update_agents tbl name prompt interval_minutes
  if sql_update_rowcount tbl name = 0 then
    updated ++ [{ name := name, prompt := prompt,
                  interval_minutes := interval_minutes,
                  enabled := true, last_run := none }]
  else updated

/-- `DatabaseManager.get_proactive_agents`: the selected rows, filtered to
enabled ones when requested. -/
def get_proactive_agents (tbl : List AgentRecord)
    (enabled_only : Bool := false) : List AgentRecord :=
  if enabled_only then tbl.filter (fun r => r.enabled) else tbl

/-- `DatabaseManager.delete_proactive_agent`:
`DELETE FROM proactive_agents WHERE name=?`. -/
def delete_proactive_agent (tbl : List AgentRecord) (name : String) :
    List AgentRecord :=
  tbl.filter (fun r => r.name != name)

/-! ## `ProactiveAgentManager._execute_agent_task`
(`src/core/proactive_agents.py`, lines 33-67)

The bound target is a function from the attempt index (0-based) to the
outcome of `agent_obj.run(...)` on that attempt: `.ok response` or
`.error msg` for a raised exception. The observable effects of one firing
are the persisted assistant messages (in order), the tool-log entries, and
whether `last_run` was updated; `attempts` counts target invocations. -/

structure ExecEffects where
  messages : List String
  tool_logs : List (String × String)
  last_run_updated : Bool
  attempts : Nat
deriving DecidableEq, Repr

/-- The success message persisted by the task (the source's f-string
contains a literal backslash-n, written `\\n` there and here). -/
def proactiveSuccessMsg (name response : String) : String :=
  "🔔 [" ++ name ++ "] Proactive Update:\\n" ++ response

/-- The error message persisted on a failed attempt: it carries the 1-based
attempt number and the exception text. -/
def proactiveErrorMsg (name : String) (attempt : Nat) (e : String) : String :=
  "⚠️ [" ++ name ++ "] Proactive Check Error (Attempt "
    ++ toString (attempt + 1) ++ "): " ++ e

/-- The tool-log entry persisted on success. -/
def proactiveToolLog (name prompt : String) : String × String :=
  (name, "Prompt executed: " ++ prompt)

/-- The `while attempt <= retries` loop, structurally recursive on the
number of remaining admissible attempts (`retries + 1 - attempt`). On
success: persist the notification message, the tool log, and the `last_run`
update, then break. On failure: persist the error message, advance the
attempt counter (the inter-attempt sleep has no observable effect here). -/
def execGo (name prompt : String) (target : Nat → Except String String) :
    Nat → Nat → ExecEffects
  | _, 0 => ⟨[], [], false, 0⟩
  | attempt, remaining + 1 =>
      match target attempt with
      | .ok response =>
          ⟨[proactiveSuccessMsg name response], [proactiveToolLog name prompt],
            true, 1⟩
      | .error e =>
          let rest := execGo name prompt target (attempt + 1) remaining
          ⟨proactiveErrorMsg name attempt e :: rest.messages, rest.tool_logs,
            rest.last_run_updated, rest.attempts + 1⟩

/-- `_execute_agent_task name prompt target retries`: run the retry loop
from attempt 0 with `retries + 1` admissible attempts. -/
def execute_agent_task (name prompt : String)
    (target : Nat → Except String String) (retries : Nat) : ExecEffects :=
  execGo name prompt target 0 (retries + 1)

example :
    execute_agent_task "daily" "p" (fun _ => .error "boom") 2
      = ⟨[proactiveErrorMsg "daily" 0 "boom", proactiveErrorMsg "daily" 1 "boom",
          proactiveErrorMsg "daily" 2 "boom"], [], false, 3⟩ := by decide
example :
    execute_agent_task "daily" "p"
        (fun i => if i == 1 then .ok "r" else .error "boom") 2
      = ⟨[proactiveErrorMsg "daily" 0 "boom", proactiveSuccessMsg "daily" "r"],
          [proactiveToolLog "daily" "p"], true, 2⟩ := by decide

/-! ## `ProactiveAgentManager` scheduling state
(`src/core/proactive_agents.py`, lines 99-182)

The APScheduler job store is an association list keyed by job id;
`add_job(..., replace_existing=True)` removes any job with the same id
before installing the new one, `remove_job` deletes by id, and
`pause_job`/`resume_job` toggle the paused flag. `self._jobs` is the
manager's dict of live handles, modelled by its key list. -/

structure SchedJob where
  interval_minutes : Nat
  paused : Bool
deriving DecidableEq, Repr

structure ManagerState where
  sched_jobs : List (String × SchedJob)
  jobs : List String
  db : List AgentRecord
deriving DecidableEq, Repr

/-- `scheduler.remove_job(id)`. -/
def scheduler_remove_job (js : List (String × SchedJob)) (id : String) :
    List (String × SchedJob) :=
  js.filter (fun p => p.1 != id)

/-- `scheduler.add_job(..., id=name, replace_existing=True)`. -/
def scheduler_add_job (js : List (String × SchedJob)) (id : String)
    (interval_minutes : Nat) : List (String × SchedJob) :=
  js.filter (fun p => p.1 != id) ++ [(id, ⟨interval_minutes, false⟩)]

/-- `self._jobs[name] = job` on the key set: insert-if-absent. -/
def dict_insert (ks : List String) (k : String) : List String :=
  if k ∈ ks then ks else ks ++ [k]

/-- `add_proactive_agent`: persist the config (upsert), cancel any existing
job for the name, install the new interval job, record the handle. -/
def add_proactive_agent (st : ManagerState) (name : String)
    (interval_minutes : Nat) (prompt : String) : ManagerState :=
  let db := save_proactive_agent st.db name prompt interval_minutes
  let s1 := if name ∈ st.jobs then scheduler_remove_job st.sched_jobs name
            else st.sched_jobs
  { sched_jobs := scheduler_add_job s1 name interval_minutes,
    jobs := dict_insert st.jobs name,
    db := db }

/-- `remove_proactive_agent`: cancel the timer and drop the handle when the
name is known, then delete the persisted config (safe on unknown names). -/
def remove_proactive_agent (st : ManagerState) (name : String) : ManagerState :=
  let st' :=
    if name ∈ st.jobs then
      { st with sched_jobs := scheduler_remove_job st.sched_jobs name,
                jobs := st.jobs.filter (fun k => k != name) }
    else st
  { st' with db := delete_proactive_agent st'.db name }

/-- `pause_proactive_agent`: pause the scheduled job when the handle exists. -/
def pause_proactive_agent (st : ManagerState) (name : String) : ManagerState :=
  if name ∈ st.jobs then
    { st with sched_jobs := st.sched_jobs.map (fun p =>
        if p.1 == name then (p.1, { p.2 with paused := true }) else p) }
  else st

/-- `resume_proactive_agent`: resume the scheduled job when the handle
exists. -/
def resume_proactive_agent (st : ManagerState) (name : String) : ManagerState :=
  if name ∈ st.jobs then
    { st with sched_jobs := st.sched_jobs.map (fun p =>
        if p.1 == name then (p.1, { p.2 with paused := false }) else p) }
  else st

/-- `shutdown`: cancel every live timer and clear the handles; the persisted
configs are untouched. -/
def shutdown (st : ManagerState) : ManagerState :=
  { sched_jobs := [], jobs := [], db := st.db }

/-- The single-handle-per-name invariant: no duplicate job ids in the
scheduler and no duplicate names among the live handles. -/
def singleHandle (st : ManagerState) : Prop :=
  (st.sched_jobs.map Prod.fst).Nodup ∧ st.jobs.Nodup

example :
    (add_proactive_agent
        (add_proactive_agent ⟨[], [], []⟩ "daily-scan" 30 "p1")
        "daily-scan" 5 "p2").sched_jobs
      = [("daily-scan", ⟨5, false⟩)] := by decide

/-! ## Theorems -/

lemma summary_total_bucket_add (s : AlertSummary) (L : Int) :
    summary_total (bucket_add s L) = summary_total s + 1 := by
  unfold bucket_add summary_total
  split_ifs <;> simp <;> omega

lemma summary_total_foldl (levels : List Int) (s : AlertSummary) :
    summary_total (levels.foldl bucket_add s) = summary_total s + levels.length := by
  induction levels generalizing s with
  | nil => simp
  | cons L t ih => rw [List.foldl_cons, ih, summary_total_bucket_add]; simp; omega

/-- C2: severity bucketing in the alert summary is total and exclusive —
for every integer level exactly one of the four buckets is incremented, with
boundaries `L ≥ 13 → critical`, `8 ≤ L < 13 → high`, `4 ≤ L < 8 → medium`,
`L < 4 → low`; consequently the reported `total_alerts` (the sum of the four
bucket counts) equals the number of alerts processed. -/
theorem severity_bucketing_total_exclusive (s : AlertSummary) (L : Int)
    (levels : List Int) :
    (13 ≤ L → bucket_add s L = { s with critical := s.critical + 1 }) ∧
    (8 ≤ L ∧ L < 13 → bucket_add s L = { s with high := s.high + 1 }) ∧
    (4 ≤ L ∧ L < 8 → bucket_add s L = { s with medium := s.medium + 1 }) ∧
    (L < 4 → bucket_add s L = { s with low := s.low + 1 }) ∧
    summary_total (bucket_add s L) = summary_total s + 1 ∧
    total_alerts levels = summary_total (get_alert_summary levels) ∧
    total_alerts levels = levels.length := by
  refine ⟨?_, ?_, ?_, ?_, summary_total_bucket_add s L, rfl, ?_⟩
  · intro h; unfold bucket_add; rw [if_pos h]
  · rintro ⟨h1, h2⟩; unfold bucket_add
    rw [if_neg (by omega), if_pos h1]
  · rintro ⟨h1, h2⟩; unfold bucket_add
    rw [if_neg (by omega), if_neg (by omega), if_pos h1]
  · intro h; unfold bucket_add
    rw [if_neg (by omega), if_neg (by omega), if_neg (by omega)]
  · unfold total_alerts get_alert_summary
    rw [summary_total_foldl]
    simp [summary_total]

/-- Witness for C2: level 15 increments exactly the critical bucket, and a
four-alert run reports `total_alerts = 4`. -/
theorem severity_bucketing_witness :
    bucket_add ⟨0, 0, 0, 0⟩ 15 = ⟨1, 0, 0, 0⟩ ∧ total_alerts [15, 8, 4, 0] = 4 :=
  ⟨(severity_bucketing_total_exclusive ⟨0, 0, 0, 0⟩ 15 []).1 (by decide),
   (severity_bucketing_total_exclusive ⟨0, 0, 0, 0⟩ 0 [15, 8, 4, 0]).2.2.2.2.2.2⟩

lemma find_agent_append_first (l1 : List WAgent) (a : WAgent) (l2 : List WAgent)
    (q : String) (ha : agent_name_matches a q = true)
    (hl1 : ∀ b ∈ l1, agent_name_matches b q = false) :
    find_agent (l1 ++ a :: l2) q = some a := by
  induction l1 with
  | nil => simp [find_agent, ha]
  | cons b t ih =>
      have hb := hl1 b (by simp)
      simp only [List.cons_append, find_agent, hb]
      simp only [Bool.false_eq_true, if_false]
      exact ih (fun x hx => hl1 x (by simp [hx]))

lemma find_agent_no_match (l : List WAgent) (q : String)
    (h : ∀ a ∈ l, agent_name_matches a q = false) :
    find_agent l q = none := by
  induction l with
  | nil => rfl
  | cons b t ih =>
      have hb := h b (by simp)
      simp only [find_agent, hb, Bool.false_eq_true, if_false]
      exact ih (fun x hx => h x (by simp [hx]))

/-- C10: agent lookup by name is case-insensitive and first-match — on a
successful roster fetch it returns the first agent whose lowered name equals
the lowered query, and it returns the not-found error envelope (never an
exception; the embedding is a total function) when no agent matches or when
the roster fetch itself failed. -/
theorem agent_lookup_case_insensitive_first_match (res : AgentsResult)
    (q : String) :
    (∀ agents, res = .ok agents →
      (∀ l1 a l2, agents = l1 ++ a :: l2 → agent_name_matches a q = true →
        (∀ b ∈ l1, agent_name_matches b q = false) →
        get_agent_by_name res q = .found a) ∧
      ((∀ a ∈ agents, agent_name_matches a q = false) →
        get_agent_by_name res q = .notFound ("Agent " ++ q ++ " not found"))) ∧
    (∀ e, res = .err e →
      get_agent_by_name res q = .notFound ("Agent " ++ q ++ " not found")) := by
  constructor
  · rintro agents rfl
    constructor
    · rintro l1 a l2 rfl ha hl1
      simp [get_agent_by_name, find_agent_append_first l1 a l2 q ha hl1]
    · intro h
      simp [get_agent_by_name, find_agent_no_match agents q h]
  · rintro e rfl; rfl

/-- Witness for C10: a roster whose second agent matches `"win-007"` only up
to case; the first (non-matching) agent is skipped and the match is found. -/
theorem agent_lookup_witness :
    get_agent_by_name (.ok [⟨"db-01", "x"⟩, ⟨"WIN-007", "y"⟩]) "win-007"
      = .found ⟨"WIN-007", "y"⟩ :=
  ((agent_lookup_case_insensitive_first_match
      (.ok [⟨"db-01", "x"⟩, ⟨"WIN-007", "y"⟩]) "win-007").1 _ rfl).1
    [⟨"db-01", "x"⟩] ⟨"WIN-007", "y"⟩ [] rfl (by decide) (by decide)

lemma countP_sql_update (tbl : List AgentRecord) (name prompt : String)
    (i : Nat) :
    (sql_update_agents tbl name prompt i).countP (fun r => r.name == name)
      = tbl.countP (fun r => r.name == name) := by
  unfold sql_update_agents
  rw [List.countP_map]
  apply List.countP_congr
  intro r _
  by_cases h : r.name == name <;> simp [Function.comp, h]

lemma mem_sql_update_fields (tbl : List AgentRecord) (name prompt : String)
    (i : Nat) :
    ∀ r ∈ sql_update_agents tbl name prompt i, r.name = name →
      r.prompt = prompt ∧ r.interval_minutes = i := by
  intro r hr hname
  unfold sql_update_agents at hr
  rcases List.mem_map.mp hr with ⟨x, hx, rfl⟩
  by_cases h : x.name == name
  · simp [h]
  · simp only [h, Bool.false_eq_true, if_false] at hname ⊢
    exact absurd (by simpa using hname) (by simpa using h)

lemma mem_save_fields (tbl : List AgentRecord) (name prompt : String) (i : Nat) :
    ∀ r ∈ save_proactive_agent tbl name prompt i, r.name = name →
      r.prompt = prompt ∧ r.interval_minutes = i := by
  intro r hr hname
  unfold save_proactive_agent at hr
  split at hr
  · rcases List.mem_append.mp hr with h | h
    · exact mem_sql_update_fields tbl name prompt i r h hname
    · simp at h; subst h; exact ⟨rfl, rfl⟩
  · exact mem_sql_update_fields tbl name prompt i r hr hname

lemma countP_save (tbl : List AgentRecord) (name prompt : String) (i : Nat)
    (h : tbl.countP (fun r => r.name == name) ≤ 1) :
    (save_proactive_agent tbl name prompt i).countP (fun r => r.name == name)
      = 1 := by
  unfold save_proactive_agent
  by_cases h0 : sql_update_rowcount tbl name = 0
  · rw [if_pos h0, List.countP_append, countP_sql_update]
    unfold sql_update_rowcount at h0
    rw [h0]
    simp
  · rw [if_neg h0, countP_sql_update]
    unfold sql_update_rowcount at h0
    omega

/-- C7: saving a proactive-agent config is an upsert keyed by name — under
the schema's uniqueness of `name` (at most one row per name), two successive
saves leave exactly one record for the name, carrying the second save's
prompt and interval. -/
theorem save_proactive_agent_upsert (tbl : List AgentRecord)
    (name p1 p2 : String) (i1 i2 : Nat)
    (h : tbl.countP (fun r => r.name == name) ≤ 1) :
    ((get_proactive_agents
        (save_proactive_agent (save_proactive_agent tbl name p1 i1) name p2 i2)).countP
      (fun r => r.name == name) = 1) ∧
    ∀ r ∈ get_proactive_agents
        (save_proactive_agent (save_proactive_agent tbl name p1 i1) name p2 i2),
      r.name = name → r.prompt = p2 ∧ r.interval_minutes = i2 := by
  have h1 := countP_save tbl name p1 i1 h
  constructor
  · simpa [get_proactive_agents] using countP_save _ name p2 i2 (by omega)
  · intro r hr
    exact mem_save_fields _ name p2 i2 r (by simpa [get_proactive_agents] using hr)

/-- Witness for C7: starting from the empty table, two saves for `"x"` leave
exactly one `"x"` record. -/
theorem save_proactive_agent_upsert_witness :
    (get_proactive_agents
        (save_proactive_agent (save_proactive_agent [] "x" "p1" 10) "x" "p2" 20)).countP
      (fun r => r.name == "x") = 1 :=
  (save_proactive_agent_upsert [] "x" "p1" "p2" 10 20 (by decide)).1

lemma execGo_all_fail (name prompt : String)
    (target : Nat → Except String String) (errf : Nat → String) :
    ∀ remaining attempt,
      (∀ i, attempt ≤ i → i < attempt + remaining → target i = .error (errf i)) →
      execGo name prompt target attempt remaining =
        ⟨(List.range' attempt remaining).map
            (fun i => proactiveErrorMsg name i (errf i)),
          [], false, remaining⟩ := by
  intro remaining
  induction remaining with
  | zero => intro attempt _; rfl
  | succ n ih =>
      intro attempt h
      have ht : target attempt = .error (errf attempt) :=
        h attempt (Nat.le_refl _) (by omega)
      have hrec := ih (attempt + 1) (fun i h1 h2 => h i (by omega) (by omega))
      simp [execGo, ht, hrec, List.range'_succ]

lemma execGo_success (name prompt : String)
    (target : Nat → Except String String) (errf : Nat → String) (resp : String) :
    ∀ remaining attempt j, attempt ≤ j → j < attempt + remaining →
      (∀ i, attempt ≤ i → i < j → target i = .error (errf i)) →
      target j = .ok resp →
      execGo name prompt target attempt remaining =
        ⟨(List.range' attempt (j - attempt)).map
            (fun i => proactiveErrorMsg name i (errf i))
          ++ [proactiveSuccessMsg name resp],
          [proactiveToolLog name prompt], true, j - attempt + 1⟩ := by
  intro remaining
  induction remaining with
  | zero => intro attempt j h1 h2; omega
  | succ n ih =>
      intro attempt j h1 h2 herr hok
      by_cases hj : j = attempt
      · subst hj
        simp [execGo, hok, List.range']
      · have ht : target attempt = .error (errf attempt) :=
          herr attempt (Nat.le_refl _) (by omega)
        have hrec := ih (attempt + 1) j (by omega) (by omega)
          (fun i hi1 hi2 => herr i (by omega) hi2) hok
        have hd : j - attempt = (j - (attempt + 1)) + 1 := by omega
        simp [execGo, ht, hrec, hd, List.range'_succ]

/-- C1: the retry protocol of `_execute_agent_task`. If the bound target
raises on every attempt up to the bound, there are exactly `r + 1` attempts
and `r + 1` persisted error messages (each carrying the 1-based attempt
number and the exception text), no tool-log entry, and no `last_run` update.
If the target first succeeds on 0-based attempt `j ≤ r`, there are exactly
`j + 1` attempts, `j` error messages followed by one success message, one
tool-log entry and a `last_run` update, and the loop stops immediately. -/
theorem execute_agent_task_retry_protocol (name prompt : String)
    (target : Nat → Except String String) (errf : Nat → String) (r : Nat) :
    ((∀ i, i ≤ r → target i = .error (errf i)) →
      execute_agent_task name prompt target r =
        ⟨(List.range (r + 1)).map (fun i => proactiveErrorMsg name i (errf i)),
          [], false, r + 1⟩) ∧
    (∀ j resp, j ≤ r → (∀ i, i < j → target i = .error (errf i)) →
      target j = .ok resp →
      execute_agent_task name prompt target r =
        ⟨(List.range j).map (fun i => proactiveErrorMsg name i (errf i))
            ++ [proactiveSuccessMsg name resp],
          [proactiveToolLog name prompt], true, j + 1⟩) := by
  constructor
  · intro h
    unfold execute_agent_task
    rw [execGo_all_fail name prompt target errf (r + 1) 0
      (fun i _ h2 => h i (by omega))]
    rw [List.range_eq_range']
  · intro j resp hj herr hok
    unfold execute_agent_task
    rw [execGo_success name prompt target errf resp (r + 1) 0 j (by omega)
      (by omega) (fun i _ h2 => herr i h2) hok]
    simp [List.range_eq_range']

/-- Witness for C1: a target failing on attempt 0 and succeeding on attempt
1 with bound 2 yields two attempts, one error message, one success message,
one tool log and a `last_run` update. -/
theorem execute_agent_task_retry_witness :
    execute_agent_task "daily" "p"
        (fun i => if i == 1 then .ok "r" else .error "boom") 2
      = ⟨[proactiveErrorMsg "daily" 0 "boom", proactiveSuccessMsg "daily" "r"],
          [proactiveToolLog "daily" "p"], true, 2⟩ := by
  have h := (execute_agent_task_retry_protocol "daily" "p"
      (fun i => if i == 1 then .ok "r" else .error "boom")
      (fun _ => "boom") 2).2 1 "r" (by omega)
    (fun i hi => by
      match i, hi with
      | 0, _ => rfl)
    rfl
  simpa using h

/-- C3: health-probe failure short-circuits the turn — for every
fetch-triggering prompt, a failed health check makes `run` return the
cannot-connect error string immediately, with the health probe as the only
client invocation (no secondary fetch) and no model call. -/
theorem health_probe_failure_short_circuits (wc : WazuhClient) (llm : LLMFun)
    (prompt : String) (prev : List ChatMsg)
    (hfetch : should_fetch_data (strLower prompt) = true)
    (hfail : wc.health_check.success = false) :
    SOCAgent.run (some wc) llm prompt prev =
      { response := "❌ Cannot connect to Wazuh: "
          ++ wc.health_check.error.getD "Unknown error",
        calls := [ClientCall.healthCheck], tool_results := [],
        llm_messages := none } := by
  simp only [SOCAgent.run, hfetch]
  simp [hfail]

/-- Witness for C3: a fetch-triggering prompt against a client whose health
probe fails yields exactly the short-circuit trace. -/
theorem health_probe_failure_witness :
    SOCAgent.run (some stubDownClient) stubLLM "fetch alerts" [] =
      { response := "❌ Cannot connect to Wazuh: "
          ++ stubDownClient.health_check.error.getD "Unknown error",
        calls := [ClientCall.healthCheck], tool_results := [],
        llm_messages := none } :=
  health_probe_failure_short_circuits stubDownClient stubLLM "fetch alerts" []
    (by decide) rfl

/-- C4: a prompt containing no fetch-triggering phrase takes the pure
conversational branch — no client call at all, and the model is invoked on
the persona system message plus the last five prior messages replayed
role-tagged, followed by the prompt. -/
theorem no_fetch_phrase_conversational (wc : Option WazuhClient) (llm : LLMFun)
    (prompt : String) (prev : List ChatMsg)
    (h : should_fetch_data (strLower prompt) = false) :
    SOCAgent.run wc llm prompt prev =
      { response :=
          match llm (conv_messages prompt prev) with
          | .ok content => content
          | .error e => "❌ Error: " ++ e,
        calls := [], tool_results := [],
        llm_messages := some (conv_messages prompt prev) } := by
  unfold SOCAgent.run
  cases wc <;> simp [h]

/-- Witness for C4: the prompt `"hello there"` contains no fetch phrase, so
the turn makes zero client calls and replays history to the model. -/
theorem no_fetch_phrase_witness :
    SOCAgent.run (some stubClient) stubLLM "hello there"
        [⟨"user", "hi"⟩, ⟨"assistant", "hey"⟩] =
      { response := "stub-answer", calls := [], tool_results := [],
        llm_messages := some (conv_messages "hello there"
          [⟨"user", "hi"⟩, ⟨"assistant", "hey"⟩]) } := by
  have h := no_fetch_phrase_conversational (some stubClient) stubLLM
    "hello there" [⟨"user", "hi"⟩, ⟨"assistant", "hey"⟩] (by decide)
  simpa using h

lemma run_fetch_trace (wc : WazuhClient) (llm : LLMFun) (prompt : String)
    (prev : List ChatMsg)
    (hfetch : should_fetch_data (strLower prompt) = true)
    (hok : wc.health_check.success = true) :
    (SOCAgent.run (some wc) llm prompt prev).calls =
      ClientCall.healthCheck ::
        (if (bucketFetches wc (strLower prompt) (extract_agent_name prompt)).isEmpty
         then defaultFetches wc (extract_agent_name prompt)
         else bucketFetches wc (strLower prompt) (extract_agent_name prompt)).map
          (fun f => f.1) ∧
    (SOCAgent.run (some wc) llm prompt prev).tool_results =
      ("Health Check", wc.health_check.body) ::
        (if (bucketFetches wc (strLower prompt) (extract_agent_name prompt)).isEmpty
         then defaultFetches wc (extract_agent_name prompt)
         else bucketFetches wc (strLower prompt) (extract_agent_name prompt)).map
          (fun f => f.2) := by
  simp only [SOCAgent.run, hfetch]
  simp [hok]

lemma bucketFetches_critical_scope (wc : WazuhClient) (pl : String)
    (a : Option String) :
    ∀ f ∈ bucketFetches wc pl a, ∀ h ag,
      f.1 = ClientCall.criticalAlerts h ag → h = 24 ∧ ag = a := by
  intro f hf h ag heq
  unfold bucketFetches at hf
  cases a <;>
  · simp only [List.mem_append] at hf
    rcases hf with ((((hf | hf) | hf) | hf) | hf) <;>
      split at hf <;> simp at hf <;>
      (try obtain rfl | rfl := hf) <;> simp_all

lemma bucketFetches_critical_mem (wc : WazuhClient) (pl : String)
    (a : Option String) (h : anyKeyword pl critical_keywords = true) :
    (ClientCall.criticalAlerts 24 a, "Critical Alerts",
        wc.get_critical_alerts 24 a) ∈ bucketFetches wc pl a ∧
    (bucketFetches wc pl a).isEmpty = false := by
  unfold bucketFetches
  rw [h]
  constructor
  · simp
  · simp

/-- C5 fails as stated: on the prompt
`"show me critical alerts for agent win-007"` (which contains `"critical"`
and the token `"win-007"`), the first marker-matching word is `"agent"`, so
the critical-alerts fetch is scoped to `agent_name="agent"` and no
critical-alerts result scoped to `"win-007"` appears in the context. -/
theorem critical_scoping_counterexample :
    containsSub (strLower "show me critical alerts for agent win-007")
        "critical" = true ∧
    "win-007" ∈ pySplit "show me critical alerts for agent win-007" ∧
    ClientCall.criticalAlerts 24 (some "win-007")
        ∉ (SOCAgent.run (some stubClient) stubLLM
            "show me critical alerts for agent win-007" []).calls ∧
    ClientCall.criticalAlerts 24 (some "agent")
        ∈ (SOCAgent.run (some stubClient) stubLLM
            "show me critical alerts for agent win-007" []).calls := by
  decide

/-- C5 (amended): for every fetch-triggering prompt that passes the health
probe, contains `"critical"`, and whose extracted agent token (the first
whitespace word matching a marker, stripped of `'.,!?'`) is `"win-007"`, the
assembled context includes a critical-alerts result scoped to
`agent_name="win-007"` and no unscoped critical-alerts result. -/
theorem critical_scoping_amended (wc : WazuhClient) (llm : LLMFun)
    (prompt : String) (prev : List ChatMsg)
    (hfetch : should_fetch_data (strLower prompt) = true)
    (hok : wc.health_check.success = true)
    (hcrit : containsSub (strLower prompt) "critical" = true)
    (hagent : extract_agent_name prompt = some "win-007") :
    ClientCall.criticalAlerts 24 (some "win-007")
        ∈ (SOCAgent.run (some wc) llm prompt prev).calls ∧
    ∀ hours, ClientCall.criticalAlerts hours none
        ∉ (SOCAgent.run (some wc) llm prompt prev).calls := by
  have hany : anyKeyword (strLower prompt) critical_keywords = true := by
    simp [anyKeyword, critical_keywords, hcrit]
  have hcalls := (run_fetch_trace wc llm prompt prev hfetch hok).1
  rw [hagent] at hcalls
  obtain ⟨hmem, hne⟩ :=
    bucketFetches_critical_mem wc (strLower prompt) (some "win-007") hany
  rw [hne] at hcalls
  simp only [Bool.false_eq_true, if_false] at hcalls
  constructor
  · rw [hcalls]
    exact List.mem_cons_of_mem _ (List.mem_map_of_mem _ hmem)
  · intro hours hmem'
    rw [hcalls] at hmem'
    rcases List.mem_cons.mp hmem' with h | h
    · exact ClientCall.noConfusion h
    · rcases List.mem_map.mp h with ⟨f, hf, hfeq⟩
      have := (bucketFetches_critical_scope wc (strLower prompt)
        (some "win-007") f hf hours none hfeq).2
      exact Option.noConfusion this

/-- Witness for the amended C5: on `"fetch critical win-007"` the token
`"win-007"` is the first marker match, and the critical fetch is scoped to
it. -/
theorem critical_scoping_amended_witness :
    ClientCall.criticalAlerts 24 (some "win-007")
        ∈ (SOCAgent.run (some stubClient) stubLLM
            "fetch critical win-007" []).calls ∧
    ClientCall.criticalAlerts 24 none
        ∉ (SOCAgent.run (some stubClient) stubLLM
            "fetch critical win-007" []).calls :=
  ⟨(critical_scoping_amended stubClient stubLLM "fetch critical win-007" []
      (by decide) rfl (by decide) (by decide)).1,
   (critical_scoping_amended stubClient stubLLM "fetch critical win-007" []
      (by decide) rfl (by decide) (by decide)).2 24⟩

/-- C8: default-fallback guarantee — a fetch-triggering prompt that passes
the health probe but fires none of the five keyword buckets still fetches
the severity summary (scoped to the extracted agent token), plus that
agent's record when a token was extracted, so the assembled context holds at
least one result beyond the health probe. -/
theorem default_fallback_guarantee (wc : WazuhClient) (llm : LLMFun)
    (prompt : String) (prev : List ChatMsg)
    (hfetch : should_fetch_data (strLower prompt) = true)
    (hok : wc.health_check.success = true)
    (h1 : anyKeyword (strLower prompt) critical_keywords = false)
    (h2 : anyKeyword (strLower prompt) alert_keywords = false)
    (h3 : anyKeyword (strLower prompt) agent_keywords = false)
    (h4 : anyKeyword (strLower prompt) vuln_keywords = false)
    (h5 : anyKeyword (strLower prompt) auth_keywords = false) :
    ClientCall.alertSummary 24 (extract_agent_name prompt)
        ∈ (SOCAgent.run (some wc) llm prompt prev).calls ∧
    (∀ nm, extract_agent_name prompt = some nm →
      ClientCall.agentByName nm ∈ (SOCAgent.run (some wc) llm prompt prev).calls) ∧
    2 ≤ (SOCAgent.run (some wc) llm prompt prev).tool_results.length := by
  have hbs : bucketFetches wc (strLower prompt) (extract_agent_name prompt)
      = [] := by
    unfold bucketFetches
    rw [h1, h2, h3, h4, h5]
    simp
  obtain ⟨hcalls, htools⟩ := run_fetch_trace wc llm prompt prev hfetch hok
  rw [hbs] at hcalls htools
  simp only [List.isEmpty_nil, if_true] at hcalls htools
  refine ⟨?_, ?_, ?_⟩
  · rw [hcalls]
    cases extract_agent_name prompt <;> simp [defaultFetches]
  · intro nm hnm
    rw [hcalls, hnm]
    simp [defaultFetches]
  · rw [htools]
    cases extract_agent_name prompt <;> simp [defaultFetches]

/-- Witness for C8: the prompt `"yes"` triggers a fetch, matches no keyword
bucket and extracts no agent token; the default fallback still fetches the
summary and the context has two entries. -/
theorem default_fallback_witness :
    ClientCall.alertSummary 24 (extract_agent_name "yes")
        ∈ (SOCAgent.run (some stubClient) stubLLM "yes" []).calls ∧
    2 ≤ (SOCAgent.run (some stubClient) stubLLM "yes" []).tool_results.length :=
  ⟨(default_fallback_guarantee stubClient stubLLM "yes" [] (by decide) rfl
      (by decide) (by decide) (by decide) (by decide) (by decide)).1,
   (default_fallback_guarantee stubClient stubLLM "yes" [] (by decide) rfl
      (by decide) (by decide) (by decide) (by decide) (by decide)).2.2⟩

/-- C9 fails as stated: with a missing `GROQ_API_KEY` and an uninitialized
model, the public entry point propagates the `ValueError` raised by
`_validate_config` instead of returning a string. -/
theorem run_raises_on_missing_config :
    SOCAgent.runTop ⟨"", "llama-3"⟩ none stubLLM none none "hello" []
      = .error "GROQ_API_KEY is required" := rfl

/-- C9 (amended): once the model is initialized, no exception escapes the
turn handler — for every input, even a model that raises on every
invocation, `run` returns `.ok` with a plain string, which in the raising
case is one of the three formatted error strings (cannot-connect, analysis
error with raw data, or plain error). -/
theorem run_no_escape_when_initialized (config : AgentConfig)
    (llm init_llm : LLMFun) (ic wc : Option WazuhClient) (prompt : String)
    (prev : List ChatMsg) (e : String)
    (hraise : ∀ msgs, llm msgs = .error e) :
    ∃ tr : RunTrace,
      SOCAgent.runTop config (some llm) init_llm ic wc prompt prev = .ok tr ∧
      ((∃ s, tr.response = "❌ Cannot connect to Wazuh: " ++ s) ∨
       (∃ s, tr.response =
          "❌ Error analyzing data: " ++ e ++ "\n\nRaw data:\n" ++ s) ∨
       tr.response = "❌ Error: " ++ e) := by
  refine ⟨SOCAgent.run wc llm prompt prev, rfl, ?_⟩
  cases wc with
  | none =>
      refine Or.inr (Or.inr ?_)
      simp [SOCAgent.run, hraise]
  | some w =>
      cases hf : should_fetch_data (strLower prompt) with
      | false =>
          refine Or.inr (Or.inr ?_)
          simp only [SOCAgent.run, hf]
          simp [hraise]
      | true =>
          by_cases hh : w.health_check.success = false
          · refine Or.inl ⟨w.health_check.error.getD "Unknown error", ?_⟩
            simp only [SOCAgent.run, hf]
            simp [hh]
          · refine Or.inr (Or.inl
              ⟨format_tool_results (("Health Check", w.health_check.body) ::
                (if (bucketFetches w (strLower prompt)
                      (extract_agent_name prompt)).isEmpty
                 then defaultFetches w (extract_agent_name prompt)
                 else bucketFetches w (strLower prompt)
                        (extract_agent_name prompt)).map (fun f => f.2)), ?_⟩)
            simp only [SOCAgent.run, hf]
            simp [hh, hraise]

/-- Witness for the amended C9: a raising model with an absent client still
yields an `.ok` result with the plain error string. -/
theorem run_no_escape_witness :
    ∃ tr : RunTrace,
      SOCAgent.runTop ⟨"k", "llama-3"⟩ (some (fun _ => .error "boom")) stubLLM
          none none "hello" [] = .ok tr ∧
      ((∃ s, tr.response = "❌ Cannot connect to Wazuh: " ++ s) ∨
       (∃ s, tr.response =
          "❌ Error analyzing data: " ++ "boom" ++ "\n\nRaw data:\n" ++ s) ∨
       tr.response = "❌ Error: " ++ "boom") :=
  run_no_escape_when_initialized ⟨"k", "llama-3"⟩ (fun _ => .error "boom")
    stubLLM none none "hello" [] "boom" (fun _ => rfl)

lemma nodup_names_filter (js : List (String × SchedJob))
    (h : (js.map Prod.fst).Nodup) (p : String × SchedJob → Bool) :
    ((js.filter p).map Prod.fst).Nodup :=
  List.Nodup.sublist (List.Sublist.map Prod.fst (List.filter_sublist js)) h

lemma not_mem_filtered_names (js : List (String × SchedJob)) (name : String) :
    name ∉ (js.filter (fun p => p.1 != name)).map Prod.fst := by
  intro hmem
  rcases List.mem_map.mp hmem with ⟨p, hp, hfst⟩
  rcases List.mem_filter.mp hp with ⟨_, hne⟩
  rw [hfst] at hne
  simp at hne

lemma nodup_scheduler_add (js : List (String × SchedJob))
    (h : (js.map Prod.fst).Nodup) (name : String) (i : Nat) :
    ((scheduler_add_job js name i).map Prod.fst).Nodup := by
  unfold scheduler_add_job
  simp only [List.map_append, List.map_cons, List.map_nil, List.nodup_append]
  refine ⟨nodup_names_filter js h _, List.nodup_singleton _, ?_⟩
  intro x hx hx1
  simp only [List.mem_singleton] at hx1
  exact not_mem_filtered_names js name (hx1 ▸ hx)

lemma map_fst_modify (js : List (String × SchedJob))
    (g : String × SchedJob → String × SchedJob)
    (hg : ∀ p, (g p).1 = p.1) :
    (js.map g).map Prod.fst = js.map Prod.fst := by
  induction js with
  | nil => rfl
  | cons p t ih => simp [ih, hg]

lemma dict_insert_nodup (ks : List String) (h : ks.Nodup) (k : String) :
    (dict_insert ks k).Nodup := by
  unfold dict_insert
  split_ifs with hk
  · exact h
  · simp [List.nodup_append, h, hk]

lemma mem_dict_insert_self (ks : List String) (k : String) :
    k ∈ dict_insert ks k := by
  unfold dict_insert
  split_ifs with hk
  · exact hk
  · simp

lemma dict_insert_of_mem (ks : List String) (k : String) (h : k ∈ ks) :
    dict_insert ks k = ks := by
  unfold dict_insert
  rw [if_pos h]

lemma filter_scheduler_add (js : List (String × SchedJob)) (name : String)
    (i : Nat) :
    (scheduler_add_job js name i).filter (fun p => p.1 == name)
      = [(name, ⟨i, false⟩)] := by
  unfold scheduler_add_job
  rw [List.filter_append]
  have h1 : (js.filter (fun p => p.1 != name)).filter (fun p => p.1 == name)
      = [] := by
    rw [List.filter_filter]
    apply List.filter_eq_nil_iff.mpr
    intro p _
    by_cases h : p.1 = name <;> simp [h]
  rw [h1]
  simp

/-- C6: at most one live scheduled-job handle exists per name — the
no-duplicate invariant on the scheduler's job ids and on the manager's
handle names is preserved by register, unregister, pause, resume and
shutdown; and registering `"daily-scan"` at interval 30 then re-registering
it at interval 5 leaves exactly one scheduler entry for that name, carrying
interval 5 (unpaused), and exactly one handle. -/
theorem single_handle_per_name (st : ManagerState) (name prompt p1 p2 : String)
    (interval : Nat) (hst : singleHandle st) :
    singleHandle (add_proactive_agent st name interval prompt) ∧
    singleHandle (remove_proactive_agent st name) ∧
    singleHandle (pause_proactive_agent st name) ∧
    singleHandle (resume_proactive_agent st name) ∧
    singleHandle (shutdown st) ∧
    ((add_proactive_agent (add_proactive_agent st "daily-scan" 30 p1)
        "daily-scan" 5 p2).sched_jobs.filter (fun p => p.1 == "daily-scan")
      = [("daily-scan", ⟨5, false⟩)]) ∧
    (add_proactive_agent (add_proactive_agent st "daily-scan" 30 p1)
        "daily-scan" 5 p2).jobs.count "daily-scan" = 1 := by
  obtain ⟨hs, hj⟩ := hst
  refine ⟨⟨?_, ?_⟩, ⟨?_, ?_⟩, ?_, ?_, ⟨List.nodup_nil, List.nodup_nil⟩, ?_, ?_⟩
  · simp only [add_proactive_agent]
    apply nodup_scheduler_add
    split_ifs with hmem
    · exact nodup_names_filter st.sched_jobs hs _
    · exact hs
  · simp only [add_proactive_agent]
    exact dict_insert_nodup st.jobs hj name
  · simp only [remove_proactive_agent]
    split_ifs with hmem
    · exact nodup_names_filter st.sched_jobs hs _
    · exact hs
  · simp only [remove_proactive_agent]
    split_ifs with hmem
    · exact List.Nodup.filter _ hj
    · exact hj
  · simp only [pause_proactive_agent]
    split_ifs with hmem
    · refine ⟨?_, hj⟩
      rw [map_fst_modify _ _ (fun p => by by_cases h : p.1 == name <;> simp [h])]
      exact hs
    · exact ⟨hs, hj⟩
  · simp only [resume_proactive_agent]
    split_ifs with hmem
    · refine ⟨?_, hj⟩
      rw [map_fst_modify _ _ (fun p => by by_cases h : p.1 == name <;> simp [h])]
      exact hs
    · exact ⟨hs, hj⟩
  · simp only [add_proactive_agent]
    exact filter_scheduler_add _ _ _
  · simp only [add_proactive_agent]
    rw [dict_insert_of_mem _ _ (mem_dict_insert_self st.jobs "daily-scan")]
    exact List.count_eq_one_of_mem (dict_insert_nodup st.jobs hj "daily-scan")
      (mem_dict_insert_self st.jobs "daily-scan")

/-- Witness for C6: from the empty manager state, double-registering
`"daily-scan"` leaves one scheduler entry at interval 5 and one handle. -/
theorem single_handle_witness :
    ((add_proactive_agent (add_proactive_agent ⟨[], [], []⟩ "daily-scan" 30 "p1")
        "daily-scan" 5 "p2").sched_jobs.filter (fun p => p.1 == "daily-scan")
      = [("daily-scan", ⟨5, false⟩)]) ∧
    (add_proactive_agent (add_proactive_agent ⟨[], [], []⟩ "daily-scan" 30 "p1")
        "daily-scan" 5 "p2").jobs.count "daily-scan" = 1 :=
  ⟨(single_handle_per_name ⟨[], [], []⟩ "n" "p" "p1" "p2" 1
      ⟨List.nodup_nil, List.nodup_nil⟩).2.2.2.2.2.1,
   (single_handle_per_name ⟨[], [], []⟩ "n" "p" "p1" "p2" 1
      ⟨List.nodup_nil, List.nodup_nil⟩).2.2.2.2.2.2⟩
